import Mathlib

/-!
Verification of the livelinev1 cricket backend proxy.

The repository contains several revisions of a small Express proxy server.
The stateful core is the `/homeList` in-memory cache of the final revision
(`src/server.js`, homeList revision): a module-level `homeListCache`
record, a TTL constant `CACHE_DURATION`, the refreshing accessor
`getHomeList`, and four cache-backed endpoints that project one field of
the cached snapshot.  The stateless pass-through helper `fetchFromApi`
exists in two shapes: the detailed one of the featured-live revision
(status forwarding, soft-failure remapping to 502) and the simple one of
the homeList revision (all failures collapse to HTTP 500).

Everything below is a shallow embedding of that JavaScript: the single
upstream fetch a call may perform is passed in as an explicit outcome
value, `Date.now()` is an explicit `now` argument, and the module-level
cache is threaded as explicit state.
-/

/-- Items of the upstream collections are opaque payloads; modelled as
natural numbers. -/
abbrev Item := Nat

/-- The `.data` object of a `/homeList` response.  Each named collection
may be absent (or JS-falsy), modelled by `none`; the endpoints default it
to `[]` via `||`. -/
structure HomeData where
  live_matches : Option (List Item)
  upcoming_matches : Option (List Item)
  series_list : Option (List Item)
  news : Option (List Item)
deriving DecidableEq

/-- The parsed JSON body of a 2xx `/homeList` response: `data` is the
container field checked by `if (!data || !data.data)`; `none` models an
absent or falsy `.data` property. -/
structure HomeListDoc where
  data : Option HomeData
deriving DecidableEq

/-- Outcome of the one upstream fetch `getHomeList` may perform.
`transportError` is a rejected `fetch` promise (its message), `httpError`
is `!apiResponse.ok` (status, statusText, body text), `success` is a 2xx
response with parsed JSON body; `success none` models a JS-falsy parsed
document. -/
inductive FetchOutcome where
  | transportError (msg : String)
  | httpError (status : Nat) (statusText : String) (body : String)
  | success (doc : Option HomeListDoc)
deriving DecidableEq

/-- The module-level cache record `homeListCache = { data: null, timestamp: 0 }`. -/
structure HomeListCache where
  data : Option HomeData
  timestamp : Nat
deriving DecidableEq

/-- Initial value of `homeListCache` at process start. -/
def initialCache : HomeListCache := { data := none, timestamp := 0 }

/-- `const CACHE_DURATION = 60000;` (milliseconds). -/
def CACHE_DURATION : Nat := 60000

/-- JS truthiness of `CRICKET_V5_TOKEN`: the environment variable is unset
(`none`) or set to some string; the empty string is falsy. -/
def tokenPresent : Option String → Bool
  | none => false
  | some s => !s.isEmpty

/-- The freshness test `homeListCache.data && (now - homeListCache.timestamp
< CACHE_DURATION)`; subtraction over the integers as in JS. -/
def cacheFresh (cache : HomeListCache) (now : Nat) : Bool :=
  cache.data.isSome && decide ((now : Int) - (cache.timestamp : Int) < (CACHE_DURATION : Int))

/-- Message of `throw new Error('API token is not configured...')`. -/
def tokenErrorMsg : String := "API token is not configured on the server. Set CRICKET_V5_TOKEN."

/-- Message template shared by the revisions: `API error: {status} {statusText}`
with the braces standing for interpolation in the JS source. -/
def apiErrorMsg (status : Nat) (statusText : String) : String :=
  "API error: " ++ toString status ++ " " ++ statusText

/-- Message of `throw new Error("Invalid response structure from /homeList API.")`. -/
def invalidShapeMsg : String := "Invalid response structure from /homeList API."

/-- Result of one call to `getHomeList`: the returned snapshot or thrown
error message, the cache state after the call, and how many upstream
fetches the call performed. -/
structure GetHomeListResult where
  result : Except String HomeData
  cache : HomeListCache
  fetches : Nat

/-- The `catch` block of `getHomeList`: a failed fetch returns the stale
snapshot when one exists, otherwise rethrows the error. -/
def failPath (cache : HomeListCache) (msg : String) : GetHomeListResult :=
  match cache.data with
  | some d => { result := .ok d, cache := cache, fetches := 1 }
  | none => { result := .error msg, cache := cache, fetches := 1 }

/-- The refresh path of `getHomeList` (cache empty or stale): token check,
then the fetch with its `try`/`catch`, shape validation, and cache update. -/
def getHomeListRefresh (token : Option String) (now : Nat) (o : FetchOutcome)
    (cache : HomeListCache) : GetHomeListResult :=
  if tokenPresent token then
    match o with
    | .transportError msg => failPath cache msg
    | .httpError st stText _ => failPath cache (apiErrorMsg st stText)
    | .success none => failPath cache invalidShapeMsg
    | .success (some doc) =>
      match doc.data with
      | none => failPath cache invalidShapeMsg
      | some hd => { result := .ok hd, cache := { data := some hd, timestamp := now }, fetches := 1 }
  else
    { result := .error tokenErrorMsg, cache := cache, fetches := 0 }

/-- `async function getHomeList()` of the homeList revision.  `token` is
`CRICKET_V5_TOKEN`, `now` is `Date.now()`, `o` is the outcome the single
upstream fetch would have, `cache` is `homeListCache` before the call. -/
def getHomeList (token : Option String) (now : Nat) (o : FetchOutcome)
    (cache : HomeListCache) : GetHomeListResult :=
  match cache.data with
  | some d =>
    if (now : Int) - (cache.timestamp : Int) < (CACHE_DURATION : Int) then
      { result := .ok d, cache := cache, fetches := 0 }
    else getHomeListRefresh token now o cache
  | none => getHomeListRefresh token now o cache

/-- A fetch outcome the `getHomeList` code treats as a failure: transport
error, non-2xx status, or a 2xx body without a truthy `.data` field. -/
def FetchOutcome.isFailure : FetchOutcome → Bool
  | .transportError _ => true
  | .httpError _ _ _ => true
  | .success none => true
  | .success (some doc) => doc.data.isNone

/-- The error message `getHomeList` throws for a failing fetch outcome. -/
def FetchOutcome.failureMsg : FetchOutcome → String
  | .transportError msg => msg
  | .httpError st stText _ => apiErrorMsg st stText
  | .success _ => invalidShapeMsg

/-- Body of a cache-backed endpoint response: `{ data: ... }` on success,
`{ error: ... }` on failure. -/
inductive AccessorBody where
  | dataBody (items : List Item)
  | errorBody (msg : String)
deriving DecidableEq

/-- HTTP response of a cache-backed endpoint (status code and JSON body). -/
structure AccessorResponse where
  status : Nat
  body : AccessorBody
deriving DecidableEq

/-- Handler of `GET /api/v5/live`: `res.json({ data: homeData.live_matches || [] })`
in the `try` branch, `res.status(500).json({ error: error.message })` in the
`catch` branch, applied to the outcome of `await getHomeList()`. -/
def liveEndpoint (r : Except String HomeData) : AccessorResponse :=
  match r with
  | .ok home => { status := 200, body := .dataBody (home.live_matches.getD []) }
  | .error e => { status := 500, body := .errorBody e }

/-- Handler of `GET /api/v5/upcoming`. -/
def upcomingEndpoint (r : Except String HomeData) : AccessorResponse :=
  match r with
  | .ok home => { status := 200, body := .dataBody (home.upcoming_matches.getD []) }
  | .error e => { status := 500, body := .errorBody e }

/-- Handler of `GET /api/v5/series`. -/
def seriesEndpoint (r : Except String HomeData) : AccessorResponse :=
  match r with
  | .ok home => { status := 200, body := .dataBody (home.series_list.getD []) }
  | .error e => { status := 500, body := .errorBody e }

/-- Handler of `GET /api/v5/news`. -/
def newsEndpoint (r : Except String HomeData) : AccessorResponse :=
  match r with
  | .ok home => { status := 200, body := .dataBody (home.news.getD []) }
  | .error e => { status := 500, body := .errorBody e }

/-- An upstream JSON document as inspected by the pass-through helper: the
`status` field when it is a boolean, the `msg` field when it is a string,
plus an opaque remainder distinguishing documents. -/
structure UpstreamDoc where
  status : Option Bool
  msg : Option String
  rest : Nat
deriving DecidableEq

/-- The `details` value of a proxy error envelope: the upstream error body
after `JSON.parse` when it parses, the raw text otherwise. -/
inductive ErrorDetails where
  | jsonDetails (doc : UpstreamDoc)
  | textDetails (raw : String)
deriving DecidableEq

/-- Outcome of the single upstream fetch of a pass-through request. -/
inductive UpstreamOutcome where
  | transportError (msg : String)
  | httpError (status : Nat) (statusText : String) (body : ErrorDetails)
  | ok (doc : UpstreamDoc)
deriving DecidableEq

/-- Body sent back by a pass-through handler: either the upstream document
forwarded verbatim by `res.json(data)`, or an error envelope
`{ error: ..., details?: ... }`. -/
inductive ProxyBody where
  | passthrough (doc : UpstreamDoc)
  | errorEnvelope (error : String) (details : Option ErrorDetails)
deriving DecidableEq

/-- Whether a proxy body is an error envelope (as opposed to a verbatim
forwarded document). -/
def ProxyBody.isEnvelope : ProxyBody → Bool
  | .passthrough _ => false
  | .errorEnvelope _ _ => true

/-- HTTP response of a pass-through handler. -/
structure ProxyResponse where
  status : Nat
  body : ProxyBody
deriving DecidableEq

/-- The soft-failure test `data.status === false && data.msg === "Something
went wrong."` of the featured-live revision. -/
def softFailure (doc : UpstreamDoc) : Bool :=
  doc.status == some false && doc.msg == some "Something went wrong."

namespace FeaturedProxy

/-- `async function fetchFromApi(res, apiUrl, endpointName, fetchOptions)`
of the featured-live revision (and, minus the soft-failure check, of the
correct-endpoints revision): forwards a non-2xx upstream status verbatim
with an `{ error, details }` envelope, remaps an embedded soft failure to
502 with the body passed through, and otherwise forwards the body with the
implicit 200. -/
def fetchFromApi (token : Option String) (endpointName : String)
    (o : UpstreamOutcome) : ProxyResponse :=
  if tokenPresent token then
    match o with
    | .transportError msg =>
      { status := 500,
        body := .errorEnvelope ("Failed to fetch " ++ endpointName ++ ". Reason: " ++ msg) none }
    | .httpError st stText body =>
      { status := st, body := .errorEnvelope (apiErrorMsg st stText) (some body) }
    | .ok doc =>
      if softFailure doc then { status := 502, body := .passthrough doc }
      else { status := 200, body := .passthrough doc }
  else
    { status := 500,
      body := .errorEnvelope "API token is not configured on the server. Set CRICKET_V5_TOKEN." none }

end FeaturedProxy

namespace HomeListProxy

/-- `async function fetchFromApi(res, apiUrl, endpointName)` of the
homeList revision: a non-2xx upstream status is turned into a thrown
`Error` whose message embeds the status, and every thrown error lands in
the `catch` block as a 500 with no `details` field. -/
def fetchFromApi (token : Option String) (endpointName : String)
    (o : UpstreamOutcome) : ProxyResponse :=
  if tokenPresent token then
    match o with
    | .transportError msg =>
      { status := 500,
        body := .errorEnvelope ("Failed to fetch " ++ endpointName ++ ". Reason: " ++ msg) none }
    | .httpError st stText _ =>
      { status := 500,
        body := .errorEnvelope
          ("Failed to fetch " ++ endpointName ++ ". Reason: " ++ apiErrorMsg st stText) none }
    | .ok doc => { status := 200, body := .passthrough doc }
  else
    { status := 500,
      body := .errorEnvelope "API token is not configured on the server. Set CRICKET_V5_TOKEN." none }

end HomeListProxy

/-- A sample snapshot, used to instantiate witnesses. -/
def sampleHome : HomeData :=
  { live_matches := some [1], upcoming_matches := some [2], series_list := none, news := none }

/-- A second sample snapshot, distinct from `sampleHome`. -/
def sampleHome2 : HomeData :=
  { live_matches := some [3, 4], upcoming_matches := none, series_list := some [5], news := some [6] }

/-! ### Supporting lemmas -/

theorem failPath_some (cache : HomeListCache) (d : HomeData) (hd : cache.data = some d)
    (msg : String) : failPath cache msg = { result := .ok d, cache := cache, fetches := 1 } := by
  unfold failPath
  rw [hd]

theorem failPath_none (cache : HomeListCache) (hd : cache.data = none) (msg : String) :
    failPath cache msg = { result := .error msg, cache := cache, fetches := 1 } := by
  unfold failPath
  rw [hd]

theorem getHomeListRefresh_failure (token : Option String) (now : Nat) (o : FetchOutcome)
    (cache : HomeListCache) (ht : tokenPresent token = true) (hf : o.isFailure = true) :
    getHomeListRefresh token now o cache = failPath cache o.failureMsg := by
  unfold getHomeListRefresh
  rw [if_pos ht]
  cases o with
  | transportError msg => rfl
  | httpError st stText body => rfl
  | success doc =>
    cases doc with
    | none => rfl
    | some dd =>
      cases hdd : dd.data with
      | none => simp only [hdd, FetchOutcome.failureMsg]
      | some hd => simp [FetchOutcome.isFailure, hdd] at hf

theorem getHomeList_data_some (token : Option String) (now : Nat) (o : FetchOutcome)
    (cache : HomeListCache) (d : HomeData) (hd : cache.data = some d) :
    getHomeList token now o cache =
      if (now : Int) - (cache.timestamp : Int) < (CACHE_DURATION : Int) then
        { result := .ok d, cache := cache, fetches := 0 }
      else getHomeListRefresh token now o cache := by
  unfold getHomeList
  rw [hd]

theorem getHomeList_data_none (token : Option String) (now : Nat) (o : FetchOutcome)
    (cache : HomeListCache) (hd : cache.data = none) :
    getHomeList token now o cache = getHomeListRefresh token now o cache := by
  unfold getHomeList
  rw [hd]

/-! ### Claims about the homeList cache -/

/-- C1: Stale-on-error fallback.  For every cache state whose snapshot slot
is populated (even if stale), a token that is set, and a failing fetch
outcome (transport error, non-2xx status, or invalid shape), `getHomeList`
returns the previously stored snapshot without raising, and the
cache-backed live endpoint responds with HTTP 200. -/
theorem c1_stale_fallback (token : Option String) (now : Nat) (o : FetchOutcome)
    (cache : HomeListCache) (d : HomeData)
    (hd : cache.data = some d) (ht : tokenPresent token = true) (hf : o.isFailure = true) :
    (getHomeList token now o cache).result = .ok d ∧
    liveEndpoint (getHomeList token now o cache).result =
      { status := 200, body := .dataBody (d.live_matches.getD []) } := by
  have hres : (getHomeList token now o cache).result = .ok d := by
    rw [getHomeList_data_some token now o cache d hd]
    split
    · rfl
    · rw [getHomeListRefresh_failure token now o cache ht hf, failPath_some cache d hd]
  exact ⟨hres, by rw [hres]; rfl⟩

theorem c1_stale_fallback_witness :
    (getHomeList (some "tok") 61000 (.transportError "socket hang up")
        { data := some sampleHome, timestamp := 0 }).result = .ok sampleHome ∧
    liveEndpoint (getHomeList (some "tok") 61000 (.transportError "socket hang up")
        { data := some sampleHome, timestamp := 0 }).result =
      { status := 200, body := .dataBody (sampleHome.live_matches.getD []) } :=
  c1_stale_fallback (some "tok") 61000 (.transportError "socket hang up")
    { data := some sampleHome, timestamp := 0 } sampleHome rfl (by decide) rfl

/-- C2: Freshness.  For every cache state holding a snapshot whose
timestamp is within `CACHE_DURATION` of the clock, `getHomeList` performs
zero fetches, returns exactly the cached snapshot, and leaves the cache
unchanged, regardless of token configuration or what a fetch would have
returned. -/
theorem c2_freshness (token : Option String) (now : Nat) (o : FetchOutcome)
    (cache : HomeListCache) (d : HomeData)
    (hd : cache.data = some d)
    (hfresh : (now : Int) - (cache.timestamp : Int) < (CACHE_DURATION : Int)) :
    getHomeList token now o cache = { result := .ok d, cache := cache, fetches := 0 } := by
  rw [getHomeList_data_some token now o cache d hd, if_pos hfresh]

theorem c2_freshness_witness :
    getHomeList (some "tok") 30000 (.transportError "unused")
        { data := some sampleHome, timestamp := 0 } =
      { result := .ok sampleHome, cache := { data := some sampleHome, timestamp := 0 },
        fetches := 0 } :=
  c2_freshness (some "tok") 30000 (.transportError "unused")
    { data := some sampleHome, timestamp := 0 } sampleHome rfl (by decide)

/-- C3: Atomicity of a failed refresh.  For every cache state, set token,
and failing fetch outcome, `getHomeList` leaves both fields of the cache
record exactly as they were; when the cache is empty it raises the fetch
error of the failing outcome (so a failed first fetch leaves the cache
empty, and a populated entry is never overwritten by a failure). -/
theorem c3_failed_refresh_atomic (token : Option String) (now : Nat) (o : FetchOutcome)
    (cache : HomeListCache) (ht : tokenPresent token = true) (hf : o.isFailure = true) :
    (getHomeList token now o cache).cache = cache ∧
    (cache.data = none → (getHomeList token now o cache).result = .error o.failureMsg) := by
  cases hd : cache.data with
  | some d =>
    constructor
    · rw [getHomeList_data_some token now o cache d hd]
      split
      · rfl
      · rw [getHomeListRefresh_failure token now o cache ht hf, failPath_some cache d hd]
    · intro h
      simp [hd] at h
  | none =>
    rw [getHomeList_data_none token now o cache hd,
        getHomeListRefresh_failure token now o cache ht hf, failPath_none cache hd]
    exact ⟨rfl, fun _ => rfl⟩

theorem c3_failed_refresh_atomic_witness :
    (getHomeList (some "tok") 61000 (.httpError 503 "Service Unavailable" "down")
        initialCache).cache = initialCache ∧
    (initialCache.data = none →
      (getHomeList (some "tok") 61000 (.httpError 503 "Service Unavailable" "down")
          initialCache).result =
        .error ((FetchOutcome.httpError 503 "Service Unavailable" "down").failureMsg)) :=
  c3_failed_refresh_atomic (some "tok") 61000 (.httpError 503 "Service Unavailable" "down")
    initialCache (by decide) rfl

theorem getHomeList_not_fresh (token : Option String) (now : Nat) (o : FetchOutcome)
    (cache : HomeListCache) (hstale : cacheFresh cache now = false) :
    getHomeList token now o cache = getHomeListRefresh token now o cache := by
  cases hd : cache.data with
  | none => exact getHomeList_data_none token now o cache hd
  | some d =>
    rw [getHomeList_data_some token now o cache d hd]
    rw [if_neg ?_]
    intro hlt
    unfold cacheFresh at hstale
    rw [hd] at hstale
    simp [hlt] at hstale

theorem failPath_fetches (cache : HomeListCache) (msg : String) :
    (failPath cache msg).fetches = 1 := by
  unfold failPath
  cases cache.data <;> rfl

theorem failPath_cache (cache : HomeListCache) (msg : String) :
    (failPath cache msg).cache = cache := by
  unfold failPath
  cases cache.data <;> rfl

/-- C4 counterexample: with a stale but populated entry and an unset token,
`getHomeList` raises the token configuration error instead of returning the
stored snapshot (the token check sits outside the try/catch), even though
the fetch outcome supplied here would have succeeded with a valid shape. -/
theorem c4_counterexample :
    ({ data := some sampleHome, timestamp := 0 } : HomeListCache).data.isSome = true ∧
    (getHomeList none 60000 (.success (some { data := some sampleHome2 }))
        { data := some sampleHome, timestamp := 0 }).result = .error tokenErrorMsg := by
  constructor
  · rfl
  · rfl

/-- C4 (amended): `getHomeList` raises if and only if the freshness test
fails (no fresh entry) and either the access token is unset or empty, or
the cache is empty and the fetch attempt fails.  In particular, whenever an
entry exists (fresh or stale) and the token is configured, it returns a
snapshot rather than failing. -/
theorem c4_raises_iff (token : Option String) (now : Nat) (o : FetchOutcome)
    (cache : HomeListCache) :
    (∃ m, (getHomeList token now o cache).result = .error m) ↔
      (cacheFresh cache now = false ∧
        (tokenPresent token = false ∨ (cache.data = none ∧ o.isFailure = true))) := by
  cases hd : cache.data with
  | some d =>
    rw [getHomeList_data_some token now o cache d hd]
    by_cases hfr : (now : Int) - (cache.timestamp : Int) < (CACHE_DURATION : Int)
    · rw [if_pos hfr]
      simp [cacheFresh, hd, hfr]
    · rw [if_neg hfr]
      unfold getHomeListRefresh
      by_cases htk : tokenPresent token = true
      · rw [if_pos htk]
        cases o with
        | transportError msg => simp [failPath, hd, cacheFresh, hfr, htk]
        | httpError st stx b => simp [failPath, hd, cacheFresh, hfr, htk]
        | success doc =>
          cases doc with
          | none => simp [failPath, hd, cacheFresh, hfr, htk]
          | some dd =>
            cases hdd : dd.data with
            | none => simp [failPath, hd, cacheFresh, hfr, htk, hdd]
            | some h2 => simp [hd, cacheFresh, hfr, htk, hdd]
      · rw [if_neg htk]
        rw [Bool.not_eq_true] at htk
        simp [cacheFresh, hd, hfr, htk, tokenErrorMsg]
  | none =>
    rw [getHomeList_data_none token now o cache hd]
    unfold getHomeListRefresh
    by_cases htk : tokenPresent token = true
    · rw [if_pos htk]
      cases o with
      | transportError msg => simp [failPath, hd, cacheFresh, htk, FetchOutcome.isFailure]
      | httpError st stx b => simp [failPath, hd, cacheFresh, htk, FetchOutcome.isFailure]
      | success doc =>
        cases doc with
        | none => simp [failPath, hd, cacheFresh, htk, FetchOutcome.isFailure]
        | some dd =>
          cases hdd : dd.data with
          | none => simp [failPath, hd, cacheFresh, htk, FetchOutcome.isFailure, hdd]
          | some h2 => simp [hd, cacheFresh, htk, FetchOutcome.isFailure, hdd]
    · rw [if_neg htk]
      rw [Bool.not_eq_true] at htk
      simp [cacheFresh, hd, htk]

/-- C5: Invalid shape is a fetch failure.  With a set token and a cache
that is not fresh, a 2xx response whose parsed body lacks a truthy `.data`
container is treated exactly as a fetch failure: the cache is unchanged and
the call returns the stale snapshot when one exists, otherwise raises the
invalid-shape error; only a response whose body carries `.data` replaces
the cache entry with the new snapshot and current clock and is returned. -/
theorem c5_invalid_shape (token : Option String) (now : Nat) (cache : HomeListCache)
    (doc : Option HomeListDoc)
    (ht : tokenPresent token = true) (hstale : cacheFresh cache now = false) :
    (doc.bind HomeListDoc.data = none →
      (getHomeList token now (.success doc) cache).cache = cache ∧
      (getHomeList token now (.success doc) cache).result =
        (match cache.data with
         | some d => .ok d
         | none => .error invalidShapeMsg)) ∧
    (∀ h2 : HomeData, doc.bind HomeListDoc.data = some h2 →
      (getHomeList token now (.success doc) cache).cache =
        { data := some h2, timestamp := now } ∧
      (getHomeList token now (.success doc) cache).result = .ok h2) := by
  rw [getHomeList_not_fresh token now (.success doc) cache hstale]
  constructor
  · intro hinv
    have hfail : (FetchOutcome.success doc).isFailure = true := by
      cases doc with
      | none => rfl
      | some dd => simpa [FetchOutcome.isFailure, Option.isNone_iff_eq_none] using hinv
    rw [getHomeListRefresh_failure token now (.success doc) cache ht hfail]
    cases hd : cache.data with
    | some d =>
      rw [failPath_some cache d hd]
      exact ⟨rfl, rfl⟩
    | none =>
      rw [failPath_none cache hd]
      exact ⟨rfl, rfl⟩
  · intro h2 hval
    cases doc with
    | none => simp at hval
    | some dd =>
      have hdd : dd.data = some h2 := by simpa using hval
      simp [getHomeListRefresh, ht, hdd]

theorem c5_invalid_shape_witness :
    ((some { data := none } : Option HomeListDoc).bind HomeListDoc.data = none →
      (getHomeList (some "tok") 61000 (.success (some { data := none }))
          { data := some sampleHome, timestamp := 0 }).cache =
        { data := some sampleHome, timestamp := 0 } ∧
      (getHomeList (some "tok") 61000 (.success (some { data := none }))
          { data := some sampleHome, timestamp := 0 }).result =
        (match ({ data := some sampleHome, timestamp := 0 } : HomeListCache).data with
         | some d => .ok d
         | none => .error invalidShapeMsg)) ∧
    (∀ h2 : HomeData,
      (some { data := none } : Option HomeListDoc).bind HomeListDoc.data = some h2 →
      (getHomeList (some "tok") 61000 (.success (some { data := none }))
          { data := some sampleHome, timestamp := 0 }).cache =
        { data := some h2, timestamp := 61000 } ∧
      (getHomeList (some "tok") 61000 (.success (some { data := none }))
          { data := some sampleHome, timestamp := 0 }).result = .ok h2) :=
  c5_invalid_shape (some "tok") 61000 { data := some sampleHome, timestamp := 0 }
    (some { data := none }) (by decide) (by decide)

/-- C6: Refresh after expiry.  With a set token and a cache that is empty
or whose timestamp lies at least `CACHE_DURATION` before the clock,
`getHomeList` performs exactly one upstream fetch; when that fetch succeeds
with a valid shape, the cache entry is replaced by the response's `.data`
field together with the current clock, and the new snapshot is returned. -/
theorem c6_refresh (token : Option String) (now : Nat) (o : FetchOutcome)
    (cache : HomeListCache)
    (ht : tokenPresent token = true)
    (hexp : cache.data = none ∨ (CACHE_DURATION : Int) ≤ (now : Int) - (cache.timestamp : Int)) :
    (getHomeList token now o cache).fetches = 1 ∧
    (∀ (dd : HomeListDoc) (h2 : HomeData), o = .success (some dd) → dd.data = some h2 →
      (getHomeList token now o cache).cache = { data := some h2, timestamp := now } ∧
      (getHomeList token now o cache).result = .ok h2) := by
  have hstale : cacheFresh cache now = false := by
    cases hexp with
    | inl h => simp [cacheFresh, h]
    | inr h => simp [cacheFresh, not_lt.mpr h]
  rw [getHomeList_not_fresh token now o cache hstale]
  constructor
  · by_cases hfail : o.isFailure = true
    · rw [getHomeListRefresh_failure token now o cache ht hfail]
      exact failPath_fetches cache o.failureMsg
    · cases o with
      | transportError msg => simp [FetchOutcome.isFailure] at hfail
      | httpError st stx b => simp [FetchOutcome.isFailure] at hfail
      | success doc =>
        cases doc with
        | none => simp [FetchOutcome.isFailure] at hfail
        | some dd =>
          rw [Bool.not_eq_true] at hfail
          simp only [FetchOutcome.isFailure, Option.isNone_eq_false_iff,
            Option.isSome_iff_exists] at hfail
          obtain ⟨h2, hdd⟩ := hfail
          simp only [getHomeListRefresh, ht, if_true, hdd]
  · intro dd h2 ho hdd
    subst ho
    simp [getHomeListRefresh, ht, hdd]

theorem c6_refresh_witness :
    (getHomeList (some "tok") 61000 (.success (some { data := some sampleHome2 }))
        { data := some sampleHome, timestamp := 0 }).fetches = 1 ∧
    (∀ (dd : HomeListDoc) (h2 : HomeData),
      FetchOutcome.success (some { data := some sampleHome2 }) = .success (some dd) →
      dd.data = some h2 →
      (getHomeList (some "tok") 61000 (.success (some { data := some sampleHome2 }))
          { data := some sampleHome, timestamp := 0 }).cache =
        { data := some h2, timestamp := 61000 } ∧
      (getHomeList (some "tok") 61000 (.success (some { data := some sampleHome2 }))
          { data := some sampleHome, timestamp := 0 }).result = .ok h2) :=
  c6_refresh (some "tok") 61000 (.success (some { data := some sampleHome2 }))
    { data := some sampleHome, timestamp := 0 } (by decide) (Or.inr (by decide))

/-- A snapshot with every named collection absent. -/
def emptyHome : HomeData :=
  { live_matches := none, upcoming_matches := none, series_list := none, news := none }

/-- C7: Projection default.  Each cache-backed endpoint projects its named
sub-field of the snapshot returned by the aggregate accessor, defaulting an
absent field to the empty sequence with a successful 200 response rather
than an error, and every endpoint forwards an aggregate-accessor error
unchanged as the body of its 500 response. -/
theorem c7_projection_default (r : Except String HomeData) :
    (∀ home : HomeData, r = .ok home →
      liveEndpoint r = { status := 200, body := .dataBody (home.live_matches.getD []) } ∧
      upcomingEndpoint r = { status := 200, body := .dataBody (home.upcoming_matches.getD []) } ∧
      seriesEndpoint r = { status := 200, body := .dataBody (home.series_list.getD []) } ∧
      newsEndpoint r = { status := 200, body := .dataBody (home.news.getD []) }) ∧
    (∀ m : String, r = .error m →
      liveEndpoint r = { status := 500, body := .errorBody m } ∧
      upcomingEndpoint r = { status := 500, body := .errorBody m } ∧
      seriesEndpoint r = { status := 500, body := .errorBody m } ∧
      newsEndpoint r = { status := 500, body := .errorBody m }) ∧
    (∀ home : HomeData, r = .ok home →
      home.live_matches = none → home.upcoming_matches = none →
      home.series_list = none → home.news = none →
      liveEndpoint r = { status := 200, body := .dataBody [] } ∧
      upcomingEndpoint r = { status := 200, body := .dataBody [] } ∧
      seriesEndpoint r = { status := 200, body := .dataBody [] } ∧
      newsEndpoint r = { status := 200, body := .dataBody [] }) := by
  refine ⟨?_, ?_, ?_⟩
  · intro home hr
    subst hr
    exact ⟨rfl, rfl, rfl, rfl⟩
  · intro m hr
    subst hr
    exact ⟨rfl, rfl, rfl, rfl⟩
  · intro home hr h1 h2 h3 h4
    subst hr
    simp [liveEndpoint, upcomingEndpoint, seriesEndpoint, newsEndpoint, h1, h2, h3, h4]

theorem c7_projection_default_witness :
    liveEndpoint (.ok emptyHome) = { status := 200, body := .dataBody [] } ∧
    newsEndpoint (.error "boom") = { status := 500, body := .errorBody "boom" } :=
  ⟨((c7_projection_default (.ok emptyHome)).2.2 emptyHome rfl rfl rfl rfl rfl).1,
   ((c7_projection_default (.error "boom")).2.1 "boom" rfl).2.2.2⟩

/-- C10: Response envelope of the cache-backed endpoints.  Whatever the
inputs to `getHomeList`, every endpoint responds either 200 with a body of
the form `{ data: s }` (`s` the projected field or `[]`) or 500 with a body
of the form `{ error: m }` (`m` the raised message); no other status or
body shape occurs. -/
theorem c10_accessor_envelope (token : Option String) (now : Nat) (o : FetchOutcome)
    (cache : HomeListCache) :
    (∃ home : HomeData, (getHomeList token now o cache).result = .ok home ∧
      liveEndpoint (getHomeList token now o cache).result =
        { status := 200, body := .dataBody (home.live_matches.getD []) } ∧
      upcomingEndpoint (getHomeList token now o cache).result =
        { status := 200, body := .dataBody (home.upcoming_matches.getD []) } ∧
      seriesEndpoint (getHomeList token now o cache).result =
        { status := 200, body := .dataBody (home.series_list.getD []) } ∧
      newsEndpoint (getHomeList token now o cache).result =
        { status := 200, body := .dataBody (home.news.getD []) }) ∨
    (∃ m : String, (getHomeList token now o cache).result = .error m ∧
      liveEndpoint (getHomeList token now o cache).result =
        { status := 500, body := .errorBody m } ∧
      upcomingEndpoint (getHomeList token now o cache).result =
        { status := 500, body := .errorBody m } ∧
      seriesEndpoint (getHomeList token now o cache).result =
        { status := 500, body := .errorBody m } ∧
      newsEndpoint (getHomeList token now o cache).result =
        { status := 500, body := .errorBody m }) := by
  cases hr : (getHomeList token now o cache).result with
  | ok home => exact Or.inl ⟨home, rfl, rfl, rfl, rfl, rfl⟩
  | error m => exact Or.inr ⟨m, rfl, rfl, rfl, rfl, rfl⟩

/-- An upstream body carrying the soft-failure marker checked by the
featured-live revision. -/
def softDoc : UpstreamDoc :=
  { status := some false, msg := some "Something went wrong.", rest := 7 }

/-- C8 counterexample: on a 2xx upstream response with body
`{status:false, msg:"Something went wrong."}` the featured-live
`fetchFromApi` does respond 502, but `res.status(502).json(data)` sends the
upstream body verbatim as the whole response body, not nested under a
`details` field of an error envelope. -/
theorem c8_counterexample :
    FeaturedProxy.fetchFromApi (some "tok") "featured-live-post" (.ok softDoc) =
      { status := 502, body := .passthrough softDoc } ∧
    (FeaturedProxy.fetchFromApi (some "tok") "featured-live-post"
        (.ok softDoc)).body.isEnvelope = false := by
  exact ⟨rfl, rfl⟩

/-- C8 (amended): for every 2xx upstream response whose JSON body has
`status` strictly equal to `false` and `msg` equal to the fixed message,
the featured-live `fetchFromApi` responds with HTTP 502 and the upstream
body passed through verbatim as the entire response body. -/
theorem c8_soft_failure (token : Option String) (epName : String) (doc : UpstreamDoc)
    (ht : tokenPresent token = true) (hs : softFailure doc = true) :
    FeaturedProxy.fetchFromApi token epName (.ok doc) =
      { status := 502, body := .passthrough doc } := by
  unfold FeaturedProxy.fetchFromApi
  rw [if_pos ht]
  simp [hs]

theorem c8_soft_failure_witness :
    FeaturedProxy.fetchFromApi (some "tok") "live-list" (.ok softDoc) =
      { status := 502, body := .passthrough softDoc } :=
  c8_soft_failure (some "tok") "live-list" softDoc (by decide) (by decide)

/-- C9 counterexample: the simple `fetchFromApi` of the homeList revision
does not forward a non-2xx upstream status; it throws and the catch block
responds 500 with no `details` field, so the claim fails for that
pass-through variant. -/
theorem c9_counterexample :
    HomeListProxy.fetchFromApi (some "tok") "scorecard"
        (.httpError 503 "Service Unavailable" (.textDetails "down")) =
      { status := 500,
        body := .errorEnvelope
          ("Failed to fetch " ++ "scorecard" ++ ". Reason: " ++ apiErrorMsg 503 "Service Unavailable")
          none } ∧
    (HomeListProxy.fetchFromApi (some "tok") "scorecard"
        (.httpError 503 "Service Unavailable" (.textDetails "down"))).status ≠ 503 := by
  exact ⟨rfl, by decide⟩

/-- C9 (amended): the featured-live revision's `fetchFromApi` forwards a
non-2xx upstream status verbatim with an envelope whose `error` string is
built from the upstream status and status text and whose `details` field
carries the upstream error body (parsed as JSON when possible, otherwise
text); the homeList revision's simple `fetchFromApi` instead responds 500
with the upstream status and status text embedded in its `error` message
and no `details` field. -/
theorem c9_status_forwarding (token : Option String) (epName : String) (st : Nat)
    (stText : String) (body : ErrorDetails) (ht : tokenPresent token = true) :
    FeaturedProxy.fetchFromApi token epName (.httpError st stText body) =
      { status := st, body := .errorEnvelope (apiErrorMsg st stText) (some body) } ∧
    HomeListProxy.fetchFromApi token epName (.httpError st stText body) =
      { status := 500,
        body := .errorEnvelope
          ("Failed to fetch " ++ epName ++ ". Reason: " ++ apiErrorMsg st stText) none } := by
  constructor
  · unfold FeaturedProxy.fetchFromApi
    rw [if_pos ht]
  · unfold HomeListProxy.fetchFromApi
    rw [if_pos ht]

theorem c9_status_forwarding_witness :
    FeaturedProxy.fetchFromApi (some "tok") "live-list"
        (.httpError 404 "Not Found" (.textDetails "no page")) =
      { status := 404, body := .errorEnvelope (apiErrorMsg 404 "Not Found")
          (some (.textDetails "no page")) } ∧
    HomeListProxy.fetchFromApi (some "tok") "live-list"
        (.httpError 404 "Not Found" (.textDetails "no page")) =
      { status := 500,
        body := .errorEnvelope
          ("Failed to fetch " ++ "live-list" ++ ". Reason: " ++ apiErrorMsg 404 "Not Found")
          none } :=
  c9_status_forwarding (some "tok") "live-list" 404 "Not Found" (.textDetails "no page")
    (by decide)
